import Mathlib

/-!
Verification of `src/canopycover/terra_canopycover.py` (the per-field canopy
cover batch orchestration).

The Python routine `CanopyCoverHeight.process_message` is embedded as a pure
Lean function producing a trace of its externally visible effects (file
open/write/close, log calls, per-plot datapoint dispatches, the bulk BETY
submission and the dataset metadata upload).  External library calls are
opaque to the repository, so their behaviour is a parameter of the model:

* `clip_raster(resource['local_paths'][0], bounds)` either raises or returns
  a pixel array; only the length of the array's shape tuple and the value
  later computed from the array matter to the orchestration, so each plot's
  environment records the shape length and the outcome of
  `terraref.stereo_rgb.calculate_canopycover(rollaxis(pxarray, 0, 3))`
  (which either raises or yields a scalar, carried here by its string
  rendering since it is only ever compared/serialised).
* `centroid_from_geojson(bounds)` yields a GeoJSON whose `"coordinates"`
  entry is the `[lon, lat]` array; the two entries are recorded per plot.
* `create_datapoint_with_dependencies(...)` either raises or succeeds; a
  raised exception propagates (the call sits outside the per-plot `try`).
* logging calls never raise (the `self.log_error(msg)` call in the `except`
  clause passes a single argument where the other call site passes two; the
  library call is modelled as an opaque logger that accepts the message).

Dictionary iteration order of `all_plots` is modelled by a list of
`(plot name, per-plot environment)` pairs.
-/

namespace TerraCanopyCover

/-! Embeddings of the Python string builtins the routine uses.  Each scans
left to right exactly as CPython does; the fuel argument (instantiated with
the input length, enough because every step consumes at least one
character when the pattern is nonempty) only makes the recursion
structural. -/

/-- One scan step of Python `str.replace`: at each position, if the
(nonempty) pattern matches, emit the replacement and skip the match,
otherwise emit the character and advance. -/
def replaceAux (pat rep : List Char) : Nat → List Char → List Char
  | _, [] => []
  | 0, l => l
  | fuel + 1, c :: rest =>
    if pat.isPrefixOf (c :: rest) ∧ pat ≠ [] then
      rep ++ replaceAux pat rep fuel ((c :: rest).drop pat.length)
    else
      c :: replaceAux pat rep fuel rest

/-- Python `s.replace(pat, rep)` for nonempty `pat`: every non-overlapping
occurrence is replaced, left to right. -/
def pyReplace (s pat rep : String) : String :=
  ⟨replaceAux pat.data rep.data s.data.length s.data⟩

/-- One scan step of Python `str.split(sep)` for nonempty `sep`: at each
position, if the separator matches, close the current cell and skip the
separator, otherwise extend the current cell. -/
def splitAux (sep : List Char) : Nat → List Char → List (List Char)
  | _, [] => [[]]
  | 0, l => [l]
  | fuel + 1, c :: rest =>
    if sep.isPrefixOf (c :: rest) ∧ sep ≠ [] then
      [] :: splitAux sep fuel ((c :: rest).drop sep.length)
    else
      match splitAux sep fuel rest with
      | [] => [[c]]
      | cell :: cells => (c :: cell) :: cells

/-- Python `s.split(sep)` for nonempty `sep`. -/
def pySplit (s sep : String) : List String :=
  (splitAux sep.data s.data.length s.data).map fun l => ⟨l⟩

/-- Python `s.endswith(suffix)`. -/
def pyEndsWith (s suffix : String) : Bool :=
  suffix.data.isSuffixOf s.data

/-- The `fields` tuple of `get_traits_table` (source lines 23-24). -/
def traitsFields : List String :=
  ["local_datetime", "canopy_cover", "access_level", "species", "site",
   "citation_author", "citation_year", "citation_title", "method"]

/-- The `traits` dictionary of `get_traits_table` (source lines 25-33).
The Python code initialises `canopy_cover` and `site` to empty lists; both
are overwritten with strings before any row is written, so the model carries
strings throughout (the never-serialised placeholders are rendered as `[]`,
their `str`). -/
structure Traits where
  local_datetime : String := ""
  canopy_cover : String := "[]"
  access_level : String := "2"
  species : String := "Sorghum bicolor"
  site : String := "[]"
  citation_author : String := "\"Zongyang, Li\""
  citation_year : String := "2016"
  citation_title : String := "Maricopa Field Station Data and Metadata"
  method : String := "Canopy Cover Estimation from RGB images"
deriving DecidableEq, Repr

/-- The function `get_traits_table` (source lines 21-35). -/
def get_traits_table : List String × Traits := (traitsFields, {})

/-- The function `generate_traits_list` (source lines 38-51). -/
def generate_traits_list (t : Traits) : List String :=
  [t.local_datetime, t.canopy_cover, t.access_level, t.species, t.site,
   t.citation_author, t.citation_year, t.citation_title, t.method]

/-- The fields of the `resource` descriptor used by `process_message`. -/
structure Resource where
  name : String
  id : String
  parentId : String
  localPaths : List String
deriving DecidableEq, Repr

/-- Outcome of `calculate_canopycover(rollaxis(pxarray, 0, 3))` for one
plot: the call raises, or yields a value (carried by its `str`). -/
inductive CCOutcome
  | raises
  | val (v : String)
deriving DecidableEq, Repr

/-- Outcome of `clip_raster(resource['local_paths'][0], bounds)` for one
plot: the call raises, or returns an array whose shape tuple has
`shapeLen` entries (together with the canopy-cover outcome that would
follow if the shape check passes). -/
inductive ClipOutcome
  | raises
  | ok (shapeLen : Nat) (cc : CCOutcome)
deriving DecidableEq, Repr

/-- Per-plot environment: the outcomes of the opaque library calls made in
one loop iteration.  `coord0`/`coord1` are the two entries of the
`[lon, lat]` `"coordinates"` array of `centroid_from_geojson(bounds)`, and
`dispatchRaises` says whether `create_datapoint_with_dependencies` raises. -/
structure PlotEnv where
  clip : ClipOutcome
  coord0 : Int
  coord1 : Int
  dispatchRaises : Bool
deriving DecidableEq, Repr

/-- The argument record of one `create_datapoint_with_dependencies` call
(source lines 136-138). -/
structure Datapoint where
  streamName : String
  geomLat : Int
  geomLon : Int
  startTime : String
  endTime : String
  sourceUri : String
  canopyCover : String
  seasonKey : String
deriving DecidableEq, Repr

/-- The metadata object of `build_metadata` (source lines 147-151). -/
structure RunMeta where
  plots_processed : Nat
  plots_skipped : Nat
  betydb_link : String
deriving DecidableEq, Repr

/-- Externally visible effects of `process_message`. -/
inductive Event
  | openFile (path : String)
  | writeLine (s : String)
  | logInfo (msg : String)
  | logError (msg : String)
  | dispatch (dp : Datapoint)
  | closeFile
  | submitBety (path : String)
  | uploadMeta (dsId : String) (md : RunMeta)
deriving DecidableEq, Repr

/-- The output path `resource['name'].replace(".tif", "_canopycover.csv")`
(source line 91).  Python `str.replace` and `String.replace` both replace
every non-overlapping occurrence, left to right. -/
def outCsvName (res : Resource) : String :=
  pyReplace res.name ".tif" "_canopycover.csv"

def betydbLink : String :=
  "https://terraref.ncsa.illinois.edu/bety/api/beta/variables?name=canopy_cover"

/-- The CSV row written for a successful plot (source lines 123-127): the
three mutable trait fields are set, then `','.join(map(str, trait_list))`
plus the trailing newline of `csv_file.write(... + '\n')`. -/
def csvRow (timestamp pn v : String) : String :=
  let t : Traits :=
    { local_datetime := timestamp ++ "T12:00:00", canopy_cover := v, site := pn }
  String.intercalate "," (generate_traits_list t) ++ "\n"

/-- The datapoint submitted for a successful plot (source lines 129-138):
geometry is `(centroid_lonlat[1], centroid_lonlat[0])`, both times are
`timestamp+"T12:00:00-07:00"`, the source URI is
`host + ("" if host.endswith("/") else "/") + "files/" + resource['id']`,
and the dataset/season key is the timestamp. -/
def mkDatapoint (host resId timestamp : String) (pe : PlotEnv) (v : String) :
    Datapoint :=
  { streamName := "Canopy Cover"
    geomLat := pe.coord1
    geomLon := pe.coord0
    startTime := timestamp ++ "T12:00:00-07:00"
    endTime := timestamp ++ "T12:00:00-07:00"
    sourceUri := host ++ (if pyEndsWith host "/" then "" else "/") ++ "files/"
      ++ resId
    canopyCover := v
    seasonKey := timestamp }

/-- The `for plotname in all_plots` loop (source lines 104-138).  Returns
the events of the loop, the final `successful_plots` counter, and whether
an uncaught exception escaped the loop (which happens exactly when
`create_datapoint_with_dependencies` raises: that call sits after the
`except` clause, outside the `try` block). -/
def runLoop (timestamp host resId : String) (total : Nat) :
    List (String × PlotEnv) → Nat → List Event × Nat × Bool
  | [], succ => ([], succ, false)
  | (pn, pe) :: rest, succ =>
    match pe.clip with
    | .raises =>
      -- lines 119-121: bare `except`, log, `continue`
      let r := runLoop timestamp host resId total rest succ
      (.logError ("error generating cc for " ++ pn) :: r.1, r.2)
    | .ok shapeLen cc =>
      if shapeLen < 3 then
        -- lines 110-112 (the shape tuple's repr in the message is elided)
        let r := runLoop timestamp host resId total rest succ
        (.logError ("unexpected array shape for " ++ pn) :: r.1, r.2)
      else
        match cc with
        | .raises =>
          -- `calculate_canopycover` raised inside the `try`: lines 119-121
          let r := runLoop timestamp host resId total rest succ
          (.logError ("error generating cc for " ++ pn) :: r.1, r.2)
        | .val v =>
          let succ1 := succ + 1
          let info : List Event :=
            if succ1 % 10 == 0 then
              [.logInfo ("processed " ++ toString succ1 ++ "/"
                ++ toString total ++ " plots")]
            else []
          let here : List Event :=
            info ++ [.writeLine (csvRow timestamp pn v),
                     .dispatch (mkDatapoint host resId timestamp pe v)]
          if pe.dispatchRaises then
            (here, succ1, true)
          else
            let r := runLoop timestamp host resId total rest succ1
            (here ++ r.1, r.2)

/-- Result of one run: the event trace, and whether an uncaught exception
escaped `process_message`. -/
structure RunResult where
  events : List Event
  aborted : Bool
deriving DecidableEq, Repr

/-- The method `CanopyCoverHeight.process_message` (source lines 85-154).
`dsName` is `ds_info['name']` returned by `get_info`; `plots` is the
mapping returned by `get_site_boundaries(timestamp, city='Maricopa')` in
iteration order.  `timestamp = ds_info['name'].split(" - ")[1]` raises
`IndexError` (before the output file is opened) when the separator is
absent. -/
def process_message (host : String) (res : Resource) (dsName : String)
    (plots : List (String × PlotEnv)) : RunResult :=
  match (pySplit dsName " - ").get? 1 with
  | none => { events := [], aborted := true }
  | some timestamp =>
    let out_csv := outCsvName res
    let pre : List Event :=
      [.logInfo ("Writing CSV to " ++ out_csv),
       .openFile out_csv,
       .writeLine (String.intercalate "," traitsFields ++ "\n"),
       .logInfo ("found " ++ toString plots.length ++ " plots on "
         ++ timestamp)]
    let r := runLoop timestamp host res.id plots.length plots 0
    if r.2.2 then
      { events := pre ++ r.1, aborted := true }
    else
      { events := pre ++ r.1 ++
          [.closeFile,
           .logInfo "submitting CSV to bety",
           .submitBety out_csv,
           .logInfo ("updating dataset metadata (" ++ res.parentId ++ ")"),
           .uploadMeta res.parentId
             { plots_processed := r.2.1,
               plots_skipped := plots.length - r.2.1,
               betydb_link := betydbLink }],
        aborted := false }

/-! Derived views of a trace. -/

/-- The strings passed to `csv_file.write`, in order. -/
def writtenOf : List Event → List String
  | [] => []
  | .writeLine s :: evs => s :: writtenOf evs
  | _ :: evs => writtenOf evs

/-- The datapoints handed to `create_datapoint_with_dependencies`, in
order. -/
def dispatchesOf : List Event → List Datapoint
  | [] => []
  | .dispatch dp :: evs => dp :: dispatchesOf evs
  | _ :: evs => dispatchesOf evs

/-- How many times `csv_file.close()` ran. -/
def closeCountOf : List Event → Nat
  | [] => 0
  | .closeFile :: evs => closeCountOf evs + 1
  | _ :: evs => closeCountOf evs

/-- A plot iteration that reaches the row write and the dispatch: the clip
succeeded with a shape of at least 3 dimensions and `calculate_canopycover`
returned a value. -/
def succOf (p : String × PlotEnv) : Option (String × PlotEnv × String) :=
  match p.2.clip with
  | .ok shapeLen (.val v) =>
    if shapeLen < 3 then none else some (p.1, p.2, v)
  | _ => none

/-- The plots whose iteration writes a row and dispatches a datapoint, in
loop order, truncated after the first one whose dispatch raises (that one
still writes and dispatches, but the loop then aborts). -/
def successPlots : List (String × PlotEnv) → List (String × PlotEnv × String)
  | [] => []
  | p :: rest =>
    match succOf p with
    | none => successPlots rest
    | some t => if p.2.dispatchRaises then [t] else t :: successPlots rest

/-- Whether the loop aborts on an uncaught dispatch exception. -/
def loopAborts : List (String × PlotEnv) → Bool
  | [] => false
  | p :: rest =>
    match succOf p with
    | none => loopAborts rest
    | some _ => if p.2.dispatchRaises then true else loopAborts rest

/-- The row a successful plot contributes. -/
def rowOfT (timestamp : String) (t : String × PlotEnv × String) : String :=
  csvRow timestamp t.1 t.2.2

/-- The datapoint a successful plot contributes. -/
def dpOfT (host resId timestamp : String) (t : String × PlotEnv × String) :
    Datapoint :=
  mkDatapoint host resId timestamp t.2.1 t.2.2

/-- How many times `submit_traits` ran. -/
def submitCountOf : List Event → Nat
  | [] => 0
  | .submitBety _ :: evs => submitCountOf evs + 1
  | _ :: evs => submitCountOf evs

/-- Whether a plot's iteration raises inside the `try` block, i.e. during
clipping or during canopy-cover estimation (the estimator only runs when
the shape check passes). -/
def raisesDuringCC (pe : PlotEnv) : Bool :=
  match pe.clip with
  | .raises => true
  | .ok shapeLen .raises => if shapeLen < 3 then false else true
  | _ => false

/-- The header line written at source line 98. -/
def headerLine : String :=
  String.intercalate "," traitsFields ++ "\n"

/-! ### Characterisation of the loop -/

theorem writtenOf_append (a b : List Event) :
    writtenOf (a ++ b) = writtenOf a ++ writtenOf b := by
  induction a with
  | nil => rfl
  | cons e a ih => cases e <;> simp [writtenOf, ih]

theorem dispatchesOf_append (a b : List Event) :
    dispatchesOf (a ++ b) = dispatchesOf a ++ dispatchesOf b := by
  induction a with
  | nil => rfl
  | cons e a ih => cases e <;> simp [dispatchesOf, ih]

theorem closeCountOf_append (a b : List Event) :
    closeCountOf (a ++ b) = closeCountOf a + closeCountOf b := by
  induction a with
  | nil => simp [closeCountOf]
  | cons e a ih => cases e <;> simp [closeCountOf, ih] <;> omega

theorem submitCountOf_append (a b : List Event) :
    submitCountOf (a ++ b) = submitCountOf a + submitCountOf b := by
  induction a with
  | nil => simp [submitCountOf]
  | cons e a ih => cases e <;> simp [submitCountOf, ih] <;> omega

theorem runLoop_spec (timestamp host resId : String) (total : Nat)
    (l : List (String × PlotEnv)) (succ : Nat) :
    writtenOf (runLoop timestamp host resId total l succ).1
      = (successPlots l).map (rowOfT timestamp) ∧
    dispatchesOf (runLoop timestamp host resId total l succ).1
      = (successPlots l).map (dpOfT host resId timestamp) ∧
    (runLoop timestamp host resId total l succ).2.1
      = succ + (successPlots l).length ∧
    (runLoop timestamp host resId total l succ).2.2 = loopAborts l ∧
    closeCountOf (runLoop timestamp host resId total l succ).1 = 0 ∧
    submitCountOf (runLoop timestamp host resId total l succ).1 = 0 := by
  induction l generalizing succ with
  | nil =>
    simp [runLoop, successPlots, loopAborts, writtenOf, dispatchesOf,
      closeCountOf, submitCountOf]
  | cons p rest ih =>
    obtain ⟨pn, pe⟩ := p
    cases hc : pe.clip with
    | raises =>
      simpa [runLoop, hc, successPlots, succOf, loopAborts, writtenOf,
        dispatchesOf, closeCountOf, submitCountOf] using ih succ
    | ok shapeLen cc =>
      cases cc with
      | raises =>
        by_cases hs : shapeLen < 3 <;>
          simpa [runLoop, hc, hs, successPlots, succOf, loopAborts, writtenOf,
            dispatchesOf, closeCountOf, submitCountOf] using ih succ
      | val v =>
        by_cases hs : shapeLen < 3
        · simpa [runLoop, hc, hs, successPlots, succOf, loopAborts, writtenOf,
            dispatchesOf, closeCountOf, submitCountOf] using ih succ
        · by_cases hd : pe.dispatchRaises
          · by_cases hm : (succ + 1) % 10 == 0 <;>
              simp [runLoop, hc, hs, hd, hm, successPlots, succOf, loopAborts,
                writtenOf, dispatchesOf, closeCountOf, submitCountOf, rowOfT,
                dpOfT]
          · have h := ih (succ + 1)
            by_cases hm : (succ + 1) % 10 == 0 <;>
              simp [runLoop, hc, hs, hd, hm, successPlots, succOf, loopAborts,
                writtenOf, dispatchesOf, closeCountOf, submitCountOf, rowOfT,
                dpOfT, writtenOf_append, dispatchesOf_append,
                closeCountOf_append, submitCountOf_append, h.1, h.2.1,
                h.2.2.1, h.2.2.2.1, h.2.2.2.2.1, h.2.2.2.2.2] <;>
              omega

/-- Everything `process_message` does, given that the timestamp extraction
at source line 90 succeeds, phrased through the trace views. -/
theorem pm_spec (host : String) (res : Resource) (dsName : String)
    (plots : List (String × PlotEnv)) (timestamp : String)
    (hts : (pySplit dsName " - ").get? 1 = some timestamp) :
    writtenOf (process_message host res dsName plots).events
      = headerLine :: (successPlots plots).map (rowOfT timestamp) ∧
    dispatchesOf (process_message host res dsName plots).events
      = (successPlots plots).map (dpOfT host res.id timestamp) ∧
    (process_message host res dsName plots).aborted = loopAborts plots ∧
    closeCountOf (process_message host res dsName plots).events
      = (if loopAborts plots then 0 else 1) ∧
    submitCountOf (process_message host res dsName plots).events
      = (if loopAborts plots then 0 else 1) := by
  obtain ⟨hw, hdp, hcnt, hab, hcl, hsb⟩ :=
    runLoop_spec timestamp host res.id plots.length plots 0
  simp only [process_message, hts]
  rw [hab]
  by_cases habt : loopAborts plots <;>
    simp [habt, writtenOf_append, dispatchesOf_append, closeCountOf_append,
      submitCountOf_append, hw, hdp, hcl, hsb, writtenOf, dispatchesOf,
      closeCountOf, submitCountOf, headerLine]

/-- On a completed run the trace ends with close, bulk submission and the
metadata upload, with the counters of source lines 147-151. -/
theorem pm_complete_tail (host : String) (res : Resource) (dsName : String)
    (plots : List (String × PlotEnv)) (timestamp : String)
    (hts : (pySplit dsName " - ").get? 1 = some timestamp)
    (habt : loopAborts plots = false) :
    Event.submitBety (outCsvName res)
        ∈ (process_message host res dsName plots).events ∧
    Event.uploadMeta res.parentId
        { plots_processed := (successPlots plots).length,
          plots_skipped := plots.length - (successPlots plots).length,
          betydb_link := betydbLink }
        ∈ (process_message host res dsName plots).events := by
  obtain ⟨hw, hdp, hcnt, hab, hcl, hsb⟩ :=
    runLoop_spec timestamp host res.id plots.length plots 0
  simp only [process_message, hts]
  rw [hab, habt]
  rw [hcnt] at *
  simp

/-- A successful iteration's record is keyed by the plot it came from. -/
theorem succOf_eq_some {p : String × PlotEnv} {t : String × PlotEnv × String}
    (h : succOf p = some t) : t.1 = p.1 ∧ t.2.1 = p.2 := by
  unfold succOf at h
  split at h
  · split at h
    · exact Option.noConfusion h
    · injection h with h2
      subst h2
      exact ⟨rfl, rfl⟩
  · exact Option.noConfusion h

/-- Every successful record comes from a plot of the list. -/
theorem mem_of_mem_successPlots {l : List (String × PlotEnv)}
    {t : String × PlotEnv × String} (h : t ∈ successPlots l) :
    (t.1, t.2.1) ∈ l ∧ succOf (t.1, t.2.1) = some t := by
  induction l with
  | nil => cases h
  | cons p rest ih =>
    unfold successPlots at h
    cases hso : succOf p with
    | none =>
      simp only [hso] at h
      obtain ⟨h1, h2⟩ := ih h
      exact ⟨List.mem_cons_of_mem _ h1, h2⟩
    | some t' =>
      simp only [hso] at h
      by_cases hd : p.2.dispatchRaises
      · rw [if_pos hd] at h
        obtain rfl : t = t' := List.mem_singleton.mp h
        obtain ⟨e1, e2⟩ := succOf_eq_some hso
        have hp : (t.1, t.2.1) = p := by rw [e1, e2]
        rw [hp]
        exact ⟨List.mem_cons_self _ _, hso⟩
      · rw [if_neg hd] at h
        rcases List.mem_cons.mp h with rfl | h'
        · obtain ⟨e1, e2⟩ := succOf_eq_some hso
          have hp : (t.1, t.2.1) = p := by rw [e1, e2]
          rw [hp]
          exact ⟨List.mem_cons_self _ _, hso⟩
        · obtain ⟨h1, h2⟩ := ih h'
          exact ⟨List.mem_cons_of_mem _ h1, h2⟩

/-- When no plot's dispatch raises, the loop never aborts. -/
theorem loopAborts_eq_false {l : List (String × PlotEnv)}
    (hnd : ∀ p ∈ l, p.2.dispatchRaises = false) : loopAborts l = false := by
  induction l with
  | nil => rfl
  | cons p rest ih =>
    unfold loopAborts
    have hd := hnd p (List.mem_cons_self _ _)
    have hrest := ih fun q hq => hnd q (List.mem_cons_of_mem _ hq)
    cases hso : succOf p <;> simp [hd, hrest]

/-- When no plot's dispatch raises, the loop visits every plot and the
successful ones are exactly the `filterMap` of the per-plot outcome. -/
theorem successPlots_eq_filterMap {l : List (String × PlotEnv)}
    (hnd : ∀ p ∈ l, p.2.dispatchRaises = false) :
    successPlots l = l.filterMap succOf := by
  induction l with
  | nil => rfl
  | cons p rest ih =>
    unfold successPlots
    have hd := hnd p (List.mem_cons_self _ _)
    have hrest := ih fun q hq => hnd q (List.mem_cons_of_mem _ hq)
    cases hso : succOf p <;> simp [hd, hrest, List.filterMap_cons, hso]

theorem successPlots_length_le (l : List (String × PlotEnv)) :
    (successPlots l).length ≤ l.length := by
  induction l with
  | nil => exact Nat.le_refl 0
  | cons p rest ih =>
    unfold successPlots
    cases hso : succOf p
    · exact Nat.le_succ_of_le ih
    · by_cases hd : p.2.dispatchRaises <;> simp [hd] <;> omega

/-- Helper for the two logging lemmas: an event in the loop's events over
the tail is in the loop's events over the whole list, when the head's
dispatch cannot abort. -/
theorem runLoop_mem_of_mem_tail (timestamp host resId : String) (total : Nat)
    (q : String × PlotEnv) (rest : List (String × PlotEnv)) (succ : Nat)
    {e : Event} (hd : q.2.dispatchRaises = false)
    (h : ∀ s : Nat, e ∈ (runLoop timestamp host resId total rest s).1) :
    e ∈ (runLoop timestamp host resId total (q :: rest) succ).1 := by
  obtain ⟨qn, qe⟩ := q
  simp only at hd
  cases hc : qe.clip with
  | raises => simp [runLoop, hc]; right; exact h succ
  | ok shapeLen cc =>
    cases cc with
    | raises =>
      by_cases hs : shapeLen < 3 <;> simp [runLoop, hc, hs] <;>
        right <;> exact h succ
    | val v =>
      by_cases hs : shapeLen < 3
      · simp [runLoop, hc, hs]; right; exact h succ
      · have h1 := h (succ + 1)
        by_cases hm : (succ + 1) % 10 == 0 <;>
          simp [runLoop, hc, hs, hd, hm] <;> tauto

/-- When no dispatch aborts the loop, a plot whose clipping or estimation
raises gets the line-120 message logged. -/
theorem runLoop_logError_raise (timestamp host resId : String) (total : Nat)
    {l : List (String × PlotEnv)} (succ : Nat) {pn : String} {pe : PlotEnv}
    (hmem : (pn, pe) ∈ l) (hfail : raisesDuringCC pe = true)
    (hnd : ∀ p ∈ l, p.2.dispatchRaises = false) :
    Event.logError ("error generating cc for " ++ pn)
      ∈ (runLoop timestamp host resId total l succ).1 := by
  induction l generalizing succ with
  | nil => cases hmem
  | cons q rest ih =>
    have hndr : ∀ p ∈ rest, p.2.dispatchRaises = false :=
      fun p hp => hnd p (List.mem_cons_of_mem _ hp)
    rcases List.mem_cons.mp hmem with hq | hmem'
    · subst hq
      unfold raisesDuringCC at hfail
      cases hc : pe.clip <;> rw [hc] at hfail
      case raises => simp [runLoop, hc]
      case ok shapeLen cc =>
        cases cc with
        | raises =>
          by_cases hs : shapeLen < 3
          · simp [hs] at hfail
          · simp [runLoop, hc, hs]
        | val v => simp at hfail
    · exact runLoop_mem_of_mem_tail timestamp host resId total q rest succ
        (hnd q (List.mem_cons_self _ _)) (fun s => ih s hmem' hndr)

/-- When no dispatch aborts the loop, a plot whose clipped array has fewer
than 3 dimensions gets the line-111 message logged. -/
theorem runLoop_logError_shape (timestamp host resId : String) (total : Nat)
    {l : List (String × PlotEnv)} (succ : Nat) {pn : String} {pe : PlotEnv}
    {shapeLen : Nat} {cc : CCOutcome} (hmem : (pn, pe) ∈ l)
    (hc : pe.clip = ClipOutcome.ok shapeLen cc) (hs : shapeLen < 3)
    (hnd : ∀ p ∈ l, p.2.dispatchRaises = false) :
    Event.logError ("unexpected array shape for " ++ pn)
      ∈ (runLoop timestamp host resId total l succ).1 := by
  induction l generalizing succ with
  | nil => cases hmem
  | cons q rest ih =>
    have hndr : ∀ p ∈ rest, p.2.dispatchRaises = false :=
      fun p hp => hnd p (List.mem_cons_of_mem _ hp)
    rcases List.mem_cons.mp hmem with hq | hmem'
    · subst hq
      cases cc <;> simp [runLoop, hc, hs]
    · exact runLoop_mem_of_mem_tail timestamp host resId total q rest succ
        (hnd q (List.mem_cons_self _ _)) (fun s => ih s hmem' hndr)

/-- Python dict keys are unique, so a plot name determines its entry. -/
theorem keyEq_of_nodup {l : List (String × PlotEnv)}
    (hnd : (l.map Prod.fst).Nodup) {pn : String} {a b : PlotEnv}
    (ha : (pn, a) ∈ l) (hb : (pn, b) ∈ l) : a = b := by
  induction l with
  | nil => cases ha
  | cons q rest ih =>
    rw [List.map_cons, List.nodup_cons] at hnd
    rcases List.mem_cons.mp ha with rfl | ha'
    · rcases List.mem_cons.mp hb with h | hb'
      · exact (congrArg Prod.snd h).symm
      · exact absurd (List.mem_map_of_mem Prod.fst hb') hnd.1
    · rcases List.mem_cons.mp hb with rfl | hb'
      · exact absurd (List.mem_map_of_mem Prod.fst ha') hnd.1
      · exact ih hnd.2 ha' hb'

/-- With unique plot names, a plot whose iteration does not reach the row
write contributes to neither output. -/
theorem not_mem_success_names {l : List (String × PlotEnv)}
    (hnd : (l.map Prod.fst).Nodup) {pn : String} {pe : PlotEnv}
    (hmem : (pn, pe) ∈ l) (hnone : succOf (pn, pe) = none) :
    ∀ t ∈ successPlots l, t.1 ≠ pn := by
  intro t ht hEq
  obtain ⟨h1, h2⟩ := mem_of_mem_successPlots ht
  rw [hEq] at h1 h2
  have he : t.2.1 = pe := keyEq_of_nodup hnd h1 hmem
  rw [he] at h2
  rw [hnone] at h2
  exact Option.noConfusion h2

/-! ### Comma-cell counting (for the CSV alignment analysis) -/

theorem string_data_append (a b : String) : (a ++ b).data = a.data ++ b.data :=
  rfl

/-- The number of cells a string yields under Python `row.split(",")`. -/
def commaCells (s : String) : Nat := (pySplit s ",").length

theorem splitAux_comma_length :
    ∀ (fuel : Nat) (l : List Char), l.length ≤ fuel →
      (splitAux [','] fuel l).length = l.count ',' + 1 := by
  intro fuel
  induction fuel with
  | zero =>
    intro l hl
    rw [List.length_eq_zero.mp (Nat.le_zero.mp hl)]
    rfl
  | succ fuel ih =>
    intro l hl
    cases l with
    | nil => rfl
    | cons c rest =>
      have hr : rest.length ≤ fuel := Nat.lt_succ_iff.mp hl
      by_cases hc : c = ','
      · subst hc
        have hpre : [','].isPrefixOf (',' :: rest) = true := by
          simp [List.isPrefixOf]
        simp [splitAux, hpre, ih rest hr, List.count_cons]
      · have hpre : [','].isPrefixOf (c :: rest) = false := by
          simp [List.isPrefixOf]
          exact fun h => hc h.symm
        have hrec := ih rest hr
        cases hsp : splitAux [','] fuel rest with
        | nil => rw [hsp] at hrec; cases hrec
        | cons cell cells =>
          rw [hsp] at hrec
          simp only [List.length_cons] at hrec
          simp [splitAux, hpre, hsp, List.count_cons, hc]
          omega

theorem commaCells_eq (s : String) : commaCells s = s.data.count ',' + 1 := by
  unfold commaCells pySplit
  rw [List.length_map]
  exact splitAux_comma_length s.data.length s.data (Nat.le_refl _)

/-- The data row, written as the explicit concatenation `','.join`
produces. -/
theorem csvRow_eq_append (timestamp pn v : String) :
    csvRow timestamp pn v
      = timestamp ++ "T12:00:00" ++ "," ++ v ++ "," ++ "2" ++ ","
        ++ "Sorghum bicolor" ++ "," ++ pn ++ "," ++ "\"Zongyang, Li\"" ++ ","
        ++ "2016" ++ "," ++ "Maricopa Field Station Data and Metadata" ++ ","
        ++ "Canopy Cover Estimation from RGB images" ++ "\n" := rfl

/-- A data row built from comma-free plot name, value and timestamp holds
nine commas: eight separators plus the one inside the default
`citation_author`. -/
theorem commaCount_csvRow (timestamp pn v : String)
    (ht : timestamp.data.count ',' = 0) (hp : pn.data.count ',' = 0)
    (hv : v.data.count ',' = 0) :
    (csvRow timestamp pn v).data.count ',' = 9 := by
  rw [csvRow_eq_append]
  simp only [string_data_append, List.count_append]
  rw [ht, hp, hv]
  decide

/-- The directory part of a path (everything before the last `/`; empty
for a bare file name). -/
def dirOf (path : String) : String :=
  String.intercalate "/" ((pySplit path "/").dropLast)

/-- The trace of a completed (non-aborted) run, explicitly. -/
theorem pm_events_eq (host : String) (res : Resource) (dsName : String)
    (plots : List (String × PlotEnv)) (timestamp : String)
    (hts : (pySplit dsName " - ").get? 1 = some timestamp)
    (habt : loopAborts plots = false) :
    (process_message host res dsName plots).events
      = [Event.logInfo ("Writing CSV to " ++ outCsvName res),
         Event.openFile (outCsvName res),
         Event.writeLine headerLine,
         Event.logInfo ("found " ++ toString plots.length ++ " plots on "
           ++ timestamp)]
        ++ (runLoop timestamp host res.id plots.length plots 0).1
        ++ [Event.closeFile,
            Event.logInfo "submitting CSV to bety",
            Event.submitBety (outCsvName res),
            Event.logInfo ("updating dataset metadata (" ++ res.parentId
              ++ ")"),
            Event.uploadMeta res.parentId
              { plots_processed := (successPlots plots).length,
                plots_skipped :=
                  plots.length - (successPlots plots).length,
                betydb_link := betydbLink }] := by
  obtain ⟨_, _, hcnt, hab, _, _⟩ :=
    runLoop_spec timestamp host res.id plots.length plots 0
  simp only [process_message, hts]
  rw [hab, habt]
  simp [hcnt, headerLine]

/-- A trace with no `submitBety` count has no `submitBety` event. -/
theorem submit_not_mem_of_count_zero {evs : List Event}
    (h : submitCountOf evs = 0) (path : String) :
    Event.submitBety path ∉ evs := by
  induction evs with
  | nil => exact List.not_mem_nil _
  | cons e rest ih =>
    intro hmem
    rcases List.mem_cons.mp hmem with rfl | hmem'
    · rw [show submitCountOf (Event.submitBety path :: rest)
          = submitCountOf rest + 1 from rfl] at h
      exact Nat.succ_ne_zero _ h
    · have : submitCountOf rest = 0 := by
        cases e <;> simp [submitCountOf] at h <;> omega
      exact ih this hmem'

/-- A trace with no `closeFile` count has no `closeFile` event. -/
theorem close_not_mem_of_count_zero {evs : List Event}
    (h : closeCountOf evs = 0) : Event.closeFile ∉ evs := by
  induction evs with
  | nil => exact List.not_mem_nil _
  | cons e rest ih =>
    intro hmem
    rcases List.mem_cons.mp hmem with rfl | hmem'
    · rw [show closeCountOf (Event.closeFile :: rest)
          = closeCountOf rest + 1 from rfl] at h
      exact Nat.succ_ne_zero _ h
    · have : closeCountOf rest = 0 := by
        cases e <;> simp [closeCountOf] at h <;> omega
      exact ih this hmem'

/-- How many times `upload_metadata` ran. -/
def uploadCountOf : List Event → Nat
  | [] => 0
  | .uploadMeta _ _ :: evs => uploadCountOf evs + 1
  | _ :: evs => uploadCountOf evs

theorem uploadCountOf_append (a b : List Event) :
    uploadCountOf (a ++ b) = uploadCountOf a + uploadCountOf b := by
  induction a with
  | nil => simp [uploadCountOf]
  | cons e a ih => cases e <;> simp [uploadCountOf, ih] <;> omega

/-- The loop body never uploads metadata (lines 145-152 come after the
loop). -/
theorem runLoop_uploadCount (timestamp host resId : String) (total : Nat)
    (l : List (String × PlotEnv)) (succ : Nat) :
    uploadCountOf (runLoop timestamp host resId total l succ).1 = 0 := by
  induction l generalizing succ with
  | nil => rfl
  | cons p rest ih =>
    obtain ⟨pn, pe⟩ := p
    cases hc : pe.clip with
    | raises => simp [runLoop, hc, uploadCountOf, ih]
    | ok shapeLen cc =>
      cases cc with
      | raises =>
        by_cases hs : shapeLen < 3 <;>
          simp [runLoop, hc, hs, uploadCountOf, ih]
      | val v =>
        by_cases hs : shapeLen < 3
        · simp [runLoop, hc, hs, uploadCountOf, ih]
        · by_cases hd : pe.dispatchRaises <;>
            by_cases hm : (succ + 1) % 10 == 0 <;>
            simp [runLoop, hc, hs, hd, hm, uploadCountOf,
              uploadCountOf_append, ih]

/-- A trace with no `uploadMeta` count has no `uploadMeta` event. -/
theorem upload_not_mem_of_count_zero {evs : List Event}
    (h : uploadCountOf evs = 0) (dsId : String) (md : RunMeta) :
    Event.uploadMeta dsId md ∉ evs := by
  induction evs with
  | nil => exact List.not_mem_nil _
  | cons e rest ih =>
    intro hmem
    rcases List.mem_cons.mp hmem with rfl | hmem'
    · rw [show uploadCountOf (Event.uploadMeta dsId md :: rest)
          = uploadCountOf rest + 1 from rfl] at h
      exact Nat.succ_ne_zero _ h
    · have : uploadCountOf rest = 0 := by
        cases e <;> simp [uploadCountOf] at h <;> omega
      exact ih this hmem'

/-- The trace of an aborted run, explicitly: the pre-loop events plus the
loop's events, nothing after. -/
theorem pm_events_eq_aborted (host : String) (res : Resource)
    (dsName : String) (plots : List (String × PlotEnv)) (timestamp : String)
    (hts : (pySplit dsName " - ").get? 1 = some timestamp)
    (habt : loopAborts plots = true) :
    (process_message host res dsName plots).events
      = [Event.logInfo ("Writing CSV to " ++ outCsvName res),
         Event.openFile (outCsvName res),
         Event.writeLine headerLine,
         Event.logInfo ("found " ++ toString plots.length ++ " plots on "
           ++ timestamp)]
        ++ (runLoop timestamp host res.id plots.length plots 0).1 := by
  obtain ⟨_, _, _, hab, _, _⟩ :=
    runLoop_spec timestamp host res.id plots.length plots 0
  simp only [process_message, hts]
  rw [hab, habt]
  simp [headerLine]

/-- An aborted run never reaches the metadata annotation of lines
145-152. -/
theorem pm_no_upload_when_aborted (host : String) (res : Resource)
    (dsName : String) (plots : List (String × PlotEnv)) (timestamp : String)
    (hts : (pySplit dsName " - ").get? 1 = some timestamp)
    (habt : loopAborts plots = true) :
    ∀ (dsId : String) (md : RunMeta), Event.uploadMeta dsId md
        ∉ (process_message host res dsName plots).events := by
  intro dsId md
  rw [pm_events_eq_aborted host res dsName plots timestamp hts habt]
  apply upload_not_mem_of_count_zero
  rw [uploadCountOf_append, runLoop_uploadCount]
  rfl

/-- If the plots before an aborting plot dispatch cleanly, the loop aborts
at that plot. -/
theorem loopAborts_abort_append {pre : List (String × PlotEnv)}
    (hpre : ∀ p ∈ pre, p.2.dispatchRaises = false) {pn : String}
    {pe : PlotEnv} {t : String × PlotEnv × String}
    (post : List (String × PlotEnv)) (hso : succOf (pn, pe) = some t)
    (hd : pe.dispatchRaises = true) :
    loopAborts (pre ++ (pn, pe) :: post) = true := by
  induction pre with
  | nil => simp [loopAborts, hso, hd]
  | cons q rest ih =>
    have hq := hpre q (List.mem_cons_self _ _)
    have hrest := ih fun p hp => hpre p (List.mem_cons_of_mem _ hp)
    unfold loopAborts
    cases hqo : succOf q <;> simp [hq, hrest, hqo]

/-- If the plots before an aborting plot dispatch cleanly, the successful
plots of the run are those of the prefix plus the aborting plot, whatever
comes after. -/
theorem successPlots_abort_append {pre : List (String × PlotEnv)}
    (hpre : ∀ p ∈ pre, p.2.dispatchRaises = false) {pn : String}
    {pe : PlotEnv} {t : String × PlotEnv × String}
    (post : List (String × PlotEnv)) (hso : succOf (pn, pe) = some t)
    (hd : pe.dispatchRaises = true) :
    successPlots (pre ++ (pn, pe) :: post)
      = pre.filterMap succOf ++ [t] := by
  induction pre with
  | nil => simp [successPlots, hso, hd]
  | cons q rest ih =>
    have hq := hpre q (List.mem_cons_self _ _)
    have hrest := ih fun p hp => hpre p (List.mem_cons_of_mem _ hp)
    unfold successPlots
    cases hqo : succOf q <;>
      simp [hq, hrest, List.filterMap_cons, hqo]

/-- A plot whose clipping or estimation raises never reaches the row
write. -/
theorem succOf_eq_none_of_raises {pn : String} {pe : PlotEnv}
    (hfail : raisesDuringCC pe = true) : succOf (pn, pe) = none := by
  cases hc : pe.clip with
  | raises => simp [succOf, hc]
  | ok shapeLen cc =>
    cases cc with
    | raises => simp [succOf, hc]
    | val v =>
      exfalso
      simp [raisesDuringCC, hc] at hfail

/-! ### Concrete sample inputs for the closed statements -/

def sampleRes : Resource :=
  { name := "fullfield_3_rgb_thumb.tif", id := "f57", parentId := "ds42",
    localPaths := ["/tmp/img/fullfield_3_rgb_thumb.tif"] }

def sampleDsName : String := "stereoTop fullfield - 2016-07-01"

def peOk (v : String) : PlotEnv :=
  { clip := .ok 3 (.val v), coord0 := -111, coord1 := 33,
    dispatchRaises := false }

def peClipRaises : PlotEnv :=
  { clip := .raises, coord0 := -111, coord1 := 33, dispatchRaises := false }

def peShape2 : PlotEnv :=
  { clip := .ok 2 (.val "0.1"), coord0 := -111, coord1 := 33,
    dispatchRaises := false }

def peCCRaises : PlotEnv :=
  { clip := .ok 3 .raises, coord0 := -111, coord1 := 33,
    dispatchRaises := false }

def peDispatchRaises : PlotEnv :=
  { clip := .ok 3 (.val "0.9"), coord0 := -111, coord1 := 33,
    dispatchRaises := true }

/-! ### The claims -/

/-- C1: for every run, the data rows written to the tabular output and the
datapoints dispatched to the geostream store are images of one and the same
list of successful plot iterations — the i-th row and the i-th dispatched
point come from the same plot in the same loop iteration, the point carries
exactly the canopy-cover value the row serialises, and the two sequences
have equal length. -/
theorem c1_rows_iff_dispatches (host : String) (res : Resource)
    (dsName : String) (plots : List (String × PlotEnv)) (timestamp : String)
    (hts : (pySplit dsName " - ").get? 1 = some timestamp) :
    (writtenOf (process_message host res dsName plots).events).tail
        = (successPlots plots).map (rowOfT timestamp)
      ∧ dispatchesOf (process_message host res dsName plots).events
        = (successPlots plots).map (dpOfT host res.id timestamp)
      ∧ (writtenOf
            (process_message host res dsName plots).events).tail.length
        = (dispatchesOf (process_message host res dsName plots).events).length
      ∧ ∀ t ∈ successPlots plots,
          (dpOfT host res.id timestamp t).canopyCover = t.2.2
            ∧ rowOfT timestamp t = csvRow timestamp t.1 t.2.2 := by
  obtain ⟨hw, hdp, _, _, _⟩ := pm_spec host res dsName plots timestamp hts
  refine ⟨?_, hdp, ?_, ?_⟩
  · rw [hw]
    rfl
  · rw [hw, hdp]
    simp
  · intro t _
    exact ⟨rfl, rfl⟩

def c1plots : List (String × PlotEnv) :=
  [("MAC_001", peOk "0.42"), ("MAC_002", peClipRaises),
   ("MAC_003", peOk "0.57")]

theorem c1_rows_iff_dispatches_witness :
    (pySplit sampleDsName " - ").get? 1 = some "2016-07-01"
      ∧ (writtenOf (process_message "https://hst" sampleRes sampleDsName
            c1plots).events).tail.length
        = (dispatchesOf (process_message "https://hst" sampleRes sampleDsName
            c1plots).events).length :=
  ⟨by decide, (c1_rows_iff_dispatches "https://hst" sampleRes sampleDsName
    c1plots "2016-07-01" (by decide)).2.2.1⟩

/-- C2: when no dispatch aborts the loop, a plot whose clipping or
canopy-cover estimation raises is caught by the bare `except`: the run does
not abort, the error is logged with the plot name, that plot contributes to
neither output, the remaining plots still produce exactly their rows, and
the bulk submission and metadata annotation still occur. -/
theorem c2_per_plot_exception_isolated (host : String) (res : Resource)
    (dsName : String) (plots : List (String × PlotEnv)) (timestamp : String)
    (pn : String) (pe : PlotEnv)
    (hts : (pySplit dsName " - ").get? 1 = some timestamp)
    (hnd : ∀ p ∈ plots, p.2.dispatchRaises = false)
    (hnodup : (plots.map Prod.fst).Nodup)
    (hmem : (pn, pe) ∈ plots)
    (hfail : raisesDuringCC pe = true) :
    (process_message host res dsName plots).aborted = false
      ∧ Event.logError ("error generating cc for " ++ pn)
          ∈ (process_message host res dsName plots).events
      ∧ (∀ t ∈ successPlots plots, t.1 ≠ pn)
      ∧ (writtenOf (process_message host res dsName plots).events).tail
          = (successPlots plots).map (rowOfT timestamp)
      ∧ Event.submitBety (outCsvName res)
          ∈ (process_message host res dsName plots).events
      ∧ Event.uploadMeta res.parentId
          { plots_processed := (successPlots plots).length,
            plots_skipped := plots.length - (successPlots plots).length,
            betydb_link := betydbLink }
          ∈ (process_message host res dsName plots).events := by
  have habt := loopAborts_eq_false hnd
  obtain ⟨hw, _, hab, _, _⟩ := pm_spec host res dsName plots timestamp hts
  have hev := pm_events_eq host res dsName plots timestamp hts habt
  have hlog := runLoop_logError_raise timestamp host res.id plots.length 0
    hmem hfail hnd
  refine ⟨by rw [hab, habt], ?_, ?_, by rw [hw]; rfl, ?_, ?_⟩
  · rw [hev]
    exact List.mem_append_left _ (List.mem_append_right _ hlog)
  · exact not_mem_success_names hnodup hmem (succOf_eq_none_of_raises hfail)
  · rw [hev]
    simp
  · rw [hev]
    simp

def c2plots : List (String × PlotEnv) :=
  [("MAC_001", peClipRaises), ("MAC_002", peOk "0.42"),
   ("MAC_003", peCCRaises)]

theorem c2_per_plot_exception_isolated_witness :
    ((pySplit sampleDsName " - ").get? 1 = some "2016-07-01"
        ∧ (∀ p ∈ c2plots, p.2.dispatchRaises = false)
        ∧ (c2plots.map Prod.fst).Nodup
        ∧ ("MAC_001", peClipRaises) ∈ c2plots
        ∧ raisesDuringCC peClipRaises = true)
      ∧ Event.logError ("error generating cc for " ++ "MAC_001")
          ∈ (process_message "https://hst" sampleRes sampleDsName
              c2plots).events :=
  ⟨⟨by decide, by decide, by decide, by decide, by decide⟩,
    (c2_per_plot_exception_isolated "https://hst" sampleRes sampleDsName
      c2plots "2016-07-01" "MAC_001" peClipRaises (by decide) (by decide)
      (by decide) (by decide) (by decide)).2.1⟩

def c3plots : List (String × PlotEnv) :=
  [("MAC_001", peDispatchRaises), ("MAC_002", peOk "0.57")]

/-- C3 (counterexample): with a first plot whose dispatch raises, the run
aborts — the exception is NOT caught by the per-plot handler.  The aborting
plot's row was written (so it was not "skipped"), the second plot was never
processed (only header + one row were written), and neither the bulk
submission nor the file close nor the metadata annotation ever ran —
refuting "the plot is skipped and the loop continues". -/
theorem c3_dispatch_caught_counterexample :
    (process_message "https://hst" sampleRes sampleDsName c3plots).aborted
        = true
      ∧ (writtenOf (process_message "https://hst" sampleRes sampleDsName
            c3plots).events).length = 2
      ∧ Event.submitBety (outCsvName sampleRes)
          ∉ (process_message "https://hst" sampleRes sampleDsName
              c3plots).events
      ∧ closeCountOf (process_message "https://hst" sampleRes sampleDsName
            c3plots).events = 0
      ∧ uploadCountOf (process_message "https://hst" sampleRes sampleDsName
            c3plots).events = 0 := by
  decide

/-- C3 (amended): the per-plot remote data-point dispatch is performed
OUTSIDE the per-plot try block (after the `except` clause), so an exception
raised by the dispatch call is not caught by the per-plot handler: it
propagates, the run aborts, the remaining plots are not processed, the
output file is never closed, and neither the bulk submission nor the
metadata annotation ever runs (the aborting plot itself has already
written its row and dispatched). -/
theorem c3_dispatch_outside_try (host : String) (res : Resource)
    (dsName : String) (pre post : List (String × PlotEnv))
    (pn : String) (pe : PlotEnv) (t : String × PlotEnv × String)
    (timestamp : String)
    (hts : (pySplit dsName " - ").get? 1 = some timestamp)
    (hpre : ∀ p ∈ pre, p.2.dispatchRaises = false)
    (hso : succOf (pn, pe) = some t)
    (hd : pe.dispatchRaises = true) :
    (process_message host res dsName (pre ++ (pn, pe) :: post)).aborted
        = true
      ∧ (writtenOf (process_message host res dsName
            (pre ++ (pn, pe) :: post)).events).tail
          = (pre.filterMap succOf ++ [t]).map (rowOfT timestamp)
      ∧ dispatchesOf (process_message host res dsName
            (pre ++ (pn, pe) :: post)).events
          = (pre.filterMap succOf ++ [t]).map (dpOfT host res.id timestamp)
      ∧ closeCountOf (process_message host res dsName
            (pre ++ (pn, pe) :: post)).events = 0
      ∧ (∀ path, Event.submitBety path
          ∉ (process_message host res dsName
              (pre ++ (pn, pe) :: post)).events)
      ∧ ∀ (dsId : String) (md : RunMeta), Event.uploadMeta dsId md
          ∉ (process_message host res dsName
              (pre ++ (pn, pe) :: post)).events := by
  have habt := loopAborts_abort_append hpre post hso hd
  have hsp := successPlots_abort_append hpre post hso hd
  obtain ⟨hw, hdp, hab, hcl, hsb⟩ :=
    pm_spec host res dsName (pre ++ (pn, pe) :: post) timestamp hts
  rw [habt] at hab hcl hsb
  rw [hsp] at hw hdp
  refine ⟨hab, by rw [hw]; rfl, hdp, by rw [hcl]; rfl, ?_, ?_⟩
  · intro path
    exact submit_not_mem_of_count_zero (by rw [hsb]; rfl) path
  · exact pm_no_upload_when_aborted host res dsName
      (pre ++ (pn, pe) :: post) timestamp hts habt

theorem c3_dispatch_outside_try_witness :
    ((pySplit sampleDsName " - ").get? 1 = some "2016-07-01"
        ∧ (∀ p ∈ [("MAC_000", peOk "0.11")],
            p.2.dispatchRaises = false)
        ∧ succOf ("MAC_001", peDispatchRaises)
            = some ("MAC_001", peDispatchRaises, "0.9")
        ∧ peDispatchRaises.dispatchRaises = true)
      ∧ (process_message "https://hst" sampleRes sampleDsName
          ([("MAC_000", peOk "0.11")]
            ++ ("MAC_001", peDispatchRaises)
              :: [("MAC_002", peOk "0.57")])).aborted = true :=
  ⟨⟨by decide, by decide, by decide, by decide⟩,
    (c3_dispatch_outside_try "https://hst" sampleRes sampleDsName
      [("MAC_000", peOk "0.11")] [("MAC_002", peOk "0.57")]
      "MAC_001" peDispatchRaises ("MAC_001", peDispatchRaises, "0.9")
      "2016-07-01" (by decide) (by decide) (by decide) (by decide)).1⟩

def c4plots : List (String × PlotEnv) := [("MAC_007", peDispatchRaises)]

/-- C4 (counterexample): on the exit path where an uncaught dispatch
exception aborts the run, the output file was opened but `csv_file.close()`
never ran — refuting "closed exactly once on every exit path". -/
theorem c4_close_counterexample :
    Event.openFile (outCsvName sampleRes)
        ∈ (process_message "https://hst" sampleRes sampleDsName
            c4plots).events
      ∧ closeCountOf (process_message "https://hst" sampleRes sampleDsName
          c4plots).events = 0
      ∧ (process_message "https://hst" sampleRes sampleDsName
          c4plots).aborted = true := by
  decide

/-- C4 (amended): the output file handle is closed exactly once on every
run that no uncaught exception aborts — in particular with zero enumerated
plots or with every plot failing — but there is no try/finally: a run
aborted between open and close (e.g. by a dispatch exception) never closes
the handle. -/
theorem c4_closed_once_when_not_aborted (host : String) (res : Resource)
    (dsName : String) (plots : List (String × PlotEnv)) (timestamp : String)
    (hts : (pySplit dsName " - ").get? 1 = some timestamp)
    (hnd : ∀ p ∈ plots, p.2.dispatchRaises = false) :
    closeCountOf (process_message host res dsName plots).events = 1 := by
  obtain ⟨_, _, _, hcl, _⟩ := pm_spec host res dsName plots timestamp hts
  rw [hcl, loopAborts_eq_false hnd]
  rfl

def c4plotsAllFail : List (String × PlotEnv) :=
  [("MAC_001", peClipRaises), ("MAC_002", peShape2),
   ("MAC_003", peCCRaises)]

theorem c4_closed_once_when_not_aborted_witness :
    ((pySplit sampleDsName " - ").get? 1 = some "2016-07-01"
        ∧ (∀ p ∈ c4plotsAllFail, p.2.dispatchRaises = false))
      ∧ closeCountOf (process_message "https://hst" sampleRes sampleDsName
          c4plotsAllFail).events = 1 :=
  ⟨⟨by decide, by decide⟩,
    c4_closed_once_when_not_aborted "https://hst" sampleRes sampleDsName
      c4plotsAllFail "2016-07-01" (by decide) (by decide)⟩

/-- C5: the code computes the output path from the resource NAME
(`resource['name'].replace(".tif", "_canopycover.csv")`), not from the
source image's local path.  At the failing input the opened CSV path is a
bare file name (directory component empty), while the source image sits in
`/tmp/img` — the file is not written adjacent to the source image, although
the code's own comment (line 88) says "Write the CSV to the same directory
as the source file".  Moreover `.replace` rewrites every occurrence of
`.tif`, not just the extension. -/
theorem c5_csv_not_adjacent_to_source :
    outCsvName sampleRes = "fullfield_3_rgb_thumb_canopycover.csv"
      ∧ Event.openFile "fullfield_3_rgb_thumb_canopycover.csv"
          ∈ (process_message "https://hst" sampleRes sampleDsName []).events
      ∧ dirOf "fullfield_3_rgb_thumb_canopycover.csv" = ""
      ∧ dirOf (sampleRes.localPaths.headD "") = "/tmp/img"
      ∧ dirOf (outCsvName sampleRes) ≠ dirOf (sampleRes.localPaths.headD "")
      ∧ pyReplace "a.tiff_x.tif" ".tif" "_canopycover.csv"
          = "a_canopycover.csvf_x_canopycover.csv" := by
  decide

/-- C6: a plot whose clipped array has fewer than 3 dimensions is logged,
contributes to neither the tabular output nor the dispatches, and is
counted in `plots_skipped`, while every other plot is processed exactly as
if the degenerate plot were absent (no dispatch aborts the run here, and
plot names are unique as Python dict keys are). -/
theorem c6_shape_skip_isolated (host : String) (res : Resource)
    (dsName : String) (pre post : List (String × PlotEnv)) (pn : String)
    (pe : PlotEnv) (shapeLen : Nat) (cc : CCOutcome) (timestamp : String)
    (hts : (pySplit dsName " - ").get? 1 = some timestamp)
    (hnd : ∀ p ∈ pre ++ (pn, pe) :: post, p.2.dispatchRaises = false)
    (hnodup : ((pre ++ (pn, pe) :: post).map Prod.fst).Nodup)
    (hc : pe.clip = ClipOutcome.ok shapeLen cc) (hs : shapeLen < 3) :
    Event.logError ("unexpected array shape for " ++ pn)
        ∈ (process_message host res dsName (pre ++ (pn, pe) :: post)).events
      ∧ (writtenOf (process_message host res dsName
            (pre ++ (pn, pe) :: post)).events).tail
          = ((pre ++ post).filterMap succOf).map (rowOfT timestamp)
      ∧ dispatchesOf (process_message host res dsName
            (pre ++ (pn, pe) :: post)).events
          = ((pre ++ post).filterMap succOf).map (dpOfT host res.id timestamp)
      ∧ (∀ t ∈ successPlots (pre ++ (pn, pe) :: post), t.1 ≠ pn)
      ∧ Event.uploadMeta res.parentId
          { plots_processed := ((pre ++ post).filterMap succOf).length,
            plots_skipped := (pre ++ (pn, pe) :: post).length
              - ((pre ++ post).filterMap succOf).length,
            betydb_link := betydbLink }
          ∈ (process_message host res dsName (pre ++ (pn, pe) :: post)).events
      ∧ 1 ≤ (pre ++ (pn, pe) :: post).length
          - ((pre ++ post).filterMap succOf).length := by
  have hsone : succOf (pn, pe) = none := by
    cases cc with
    | raises => simp [succOf, hc]
    | val v => simp [succOf, hc, hs]
  have habt := loopAborts_eq_false hnd
  have hfm : successPlots (pre ++ (pn, pe) :: post)
      = (pre ++ post).filterMap succOf := by
    rw [successPlots_eq_filterMap hnd]
    simp [List.filterMap_append, List.filterMap_cons, hsone]
  obtain ⟨hw, hdp, hab, hcl, hsb⟩ :=
    pm_spec host res dsName (pre ++ (pn, pe) :: post) timestamp hts
  have hev := pm_events_eq host res dsName (pre ++ (pn, pe) :: post)
    timestamp hts habt
  have hmem : (pn, pe) ∈ pre ++ (pn, pe) :: post := by simp
  have hlog := runLoop_logError_shape timestamp host res.id
    (pre ++ (pn, pe) :: post).length 0 hmem hc hs hnd
  have hlen : ((pre ++ post).filterMap succOf).length ≤ (pre ++ post).length :=
    List.length_filterMap_le _ _
  rw [hfm] at hw hdp hev
  refine ⟨?_, by rw [hw]; rfl, hdp, ?_, ?_, ?_⟩
  · rw [hev]
    exact List.mem_append_left _ (List.mem_append_right _ hlog)
  · exact not_mem_success_names hnodup hmem hsone
  · rw [hev]
    simp
  · simp only [List.length_append, List.length_cons] at hlen ⊢
    omega

def c6pre : List (String × PlotEnv) := [("MAC_001", peOk "0.42")]
def c6post : List (String × PlotEnv) := [("MAC_003", peOk "0.57")]

theorem c6_shape_skip_isolated_witness :
    ((pySplit sampleDsName " - ").get? 1 = some "2016-07-01"
        ∧ (∀ p ∈ c6pre ++ ("MAC_002", peShape2) :: c6post,
            p.2.dispatchRaises = false)
        ∧ ((c6pre ++ ("MAC_002", peShape2) :: c6post).map Prod.fst).Nodup
        ∧ peShape2.clip = ClipOutcome.ok 2 (CCOutcome.val "0.1"))
      ∧ Event.logError ("unexpected array shape for " ++ "MAC_002")
          ∈ (process_message "https://hst" sampleRes sampleDsName
              (c6pre ++ ("MAC_002", peShape2) :: c6post)).events :=
  ⟨⟨by decide, by decide, by decide, by decide⟩,
    (c6_shape_skip_isolated "https://hst" sampleRes sampleDsName
      c6pre c6post "MAC_002" peShape2 2 (CCOutcome.val "0.1") "2016-07-01"
      (by decide) (by decide) (by decide) (by decide) (by decide)).1⟩

/-- C7: the first string written to the output file is exactly the header
line (the claimed field names, comma-joined, plus the newline), and every
later written string is a data row joining the Trait Record fields in the
same fixed order. -/
theorem c7_header_and_field_order (host : String) (res : Resource)
    (dsName : String) (plots : List (String × PlotEnv)) (timestamp : String)
    (hts : (pySplit dsName " - ").get? 1 = some timestamp) :
    (writtenOf (process_message host res dsName plots).events).head?
        = some ("local_datetime,canopy_cover,access_level,species,site,citation_author,citation_year,citation_title,method"
            ++ "\n")
      ∧ ∀ row ∈ (writtenOf (process_message host res dsName
            plots).events).tail,
          ∃ pn v, row = String.intercalate ","
              [timestamp ++ "T12:00:00", v, "2", "Sorghum bicolor", pn,
               "\"Zongyang, Li\"", "2016",
               "Maricopa Field Station Data and Metadata",
               "Canopy Cover Estimation from RGB images"] ++ "\n" := by
  obtain ⟨hw, _⟩ := pm_spec host res dsName plots timestamp hts
  constructor
  · rw [hw]
    simp only [List.head?_cons, Option.some.injEq]
    decide
  · rw [hw]
    intro row hrow
    simp only [List.tail_cons, List.mem_map] at hrow
    obtain ⟨t, _, rfl⟩ := hrow
    exact ⟨t.1, t.2.2, rfl⟩

def c7plots : List (String × PlotEnv) := [("MAC_001", peOk "0.42")]

theorem c7_header_and_field_order_witness :
    (pySplit sampleDsName " - ").get? 1 = some "2016-07-01"
      ∧ (writtenOf (process_message "https://hst" sampleRes sampleDsName
            c7plots).events).head?
        = some ("local_datetime,canopy_cover,access_level,species,site,citation_author,citation_year,citation_title,method"
            ++ "\n") :=
  ⟨by decide,
    (c7_header_and_field_order "https://hst" sampleRes sampleDsName c7plots
      "2016-07-01" (by decide)).1⟩

/-- C8: every dispatched datapoint uses the centroid's `[lon, lat]`
coordinate array with its two entries swapped into `(lat, lon)` order, and
both of its timestamps are the acquisition date followed by
`T12:00:00-07:00`. -/
theorem c8_datapoint_geom_and_times (host : String) (res : Resource)
    (dsName : String) (plots : List (String × PlotEnv)) (timestamp : String)
    (hts : (pySplit dsName " - ").get? 1 = some timestamp) :
    ∀ dp ∈ dispatchesOf (process_message host res dsName plots).events,
      ∃ pn pe v, (pn, pe) ∈ plots
        ∧ dp = mkDatapoint host res.id timestamp pe v
        ∧ dp.geomLat = pe.coord1
        ∧ dp.geomLon = pe.coord0
        ∧ dp.startTime = timestamp ++ "T12:00:00-07:00"
        ∧ dp.endTime = timestamp ++ "T12:00:00-07:00" := by
  obtain ⟨_, hdp, _⟩ := pm_spec host res dsName plots timestamp hts
  rw [hdp]
  intro dp hdp'
  obtain ⟨t, ht, rfl⟩ := List.mem_map.mp hdp'
  obtain ⟨hmem, _⟩ := mem_of_mem_successPlots ht
  exact ⟨t.1, t.2.1, t.2.2, hmem, rfl, rfl, rfl, rfl, rfl⟩

def c8plots : List (String × PlotEnv) := [("MAC_001", peOk "0.42")]

theorem c8_datapoint_geom_and_times_witness :
    (pySplit sampleDsName " - ").get? 1 = some "2016-07-01"
      ∧ ∀ dp ∈ dispatchesOf (process_message "https://hst" sampleRes
            sampleDsName c8plots).events,
          ∃ pn pe v, (pn, pe) ∈ c8plots
            ∧ dp = mkDatapoint "https://hst" sampleRes.id "2016-07-01" pe v
            ∧ dp.geomLat = pe.coord1
            ∧ dp.geomLon = pe.coord0
            ∧ dp.startTime = "2016-07-01" ++ "T12:00:00-07:00"
            ∧ dp.endTime = "2016-07-01" ++ "T12:00:00-07:00" :=
  ⟨by decide,
    c8_datapoint_geom_and_times "https://hst" sampleRes sampleDsName c8plots
      "2016-07-01" (by decide)⟩

/-- C9: with an empty plot mapping the run completes without aborting, the
output file holds only the header line, and the metadata annotation records
0 plots processed and 0 plots skipped. -/
theorem c9_zero_plots (host : String) (res : Resource) (dsName : String)
    (timestamp : String)
    (hts : (pySplit dsName " - ").get? 1 = some timestamp) :
    (process_message host res dsName []).aborted = false
      ∧ writtenOf (process_message host res dsName []).events = [headerLine]
      ∧ Event.uploadMeta res.parentId
          { plots_processed := 0, plots_skipped := 0,
            betydb_link := betydbLink }
          ∈ (process_message host res dsName []).events := by
  obtain ⟨hw, _, hab, _, _⟩ := pm_spec host res dsName [] timestamp hts
  have hev := pm_events_eq host res dsName [] timestamp hts rfl
  refine ⟨by rw [hab]; rfl, by rw [hw]; rfl, ?_⟩
  rw [hev]
  simp [successPlots]

theorem c9_zero_plots_witness :
    (pySplit sampleDsName " - ").get? 1 = some "2016-07-01"
      ∧ writtenOf (process_message "https://hst" sampleRes sampleDsName
          []).events = [headerLine] :=
  ⟨by decide,
    (c9_zero_plots "https://hst" sampleRes sampleDsName "2016-07-01"
      (by decide)).2.1⟩

/-- C10: the default `citation_author` is `"Zongyang, Li"` including the
quotes — a value containing a comma — so (whenever the timestamp, the plot
names and the serialised canopy-cover values are comma-free, as in the
intended data) every written data row splits by comma into 10 cells while
the header row splits into 9: the data rows never align cell-for-cell with
the header. -/
theorem c10_citation_author_comma_misalignment (host : String)
    (res : Resource) (dsName : String) (plots : List (String × PlotEnv))
    (timestamp : String)
    (hts : (pySplit dsName " - ").get? 1 = some timestamp)
    (ht : timestamp.data.count ',' = 0)
    (hfree : ∀ t ∈ successPlots plots,
      t.1.data.count ',' = 0 ∧ t.2.2.data.count ',' = 0) :
    ({} : Traits).citation_author = "\"Zongyang, Li\""
      ∧ ({} : Traits).citation_author.data.count ',' = 1
      ∧ commaCells headerLine = 9
      ∧ ∀ row ∈ (writtenOf (process_message host res dsName
            plots).events).tail,
          commaCells row = 10 := by
  refine ⟨rfl, by decide, by decide, ?_⟩
  obtain ⟨hw, _⟩ := pm_spec host res dsName plots timestamp hts
  rw [hw]
  intro row hrow
  simp only [List.tail_cons, List.mem_map] at hrow
  obtain ⟨t, ht', rfl⟩ := hrow
  rw [show rowOfT timestamp t = csvRow timestamp t.1 t.2.2 from rfl]
  rw [commaCells_eq]
  rw [commaCount_csvRow timestamp t.1 t.2.2 ht (hfree t ht').1
    (hfree t ht').2]

def c10plots : List (String × PlotEnv) :=
  [("MAC_001", peOk "0.42"), ("MAC_002", peOk "0.57")]

theorem c10_citation_author_comma_misalignment_witness :
    ((pySplit sampleDsName " - ").get? 1 = some "2016-07-01"
        ∧ ("2016-07-01").data.count ',' = 0
        ∧ (∀ t ∈ successPlots c10plots,
            t.1.data.count ',' = 0 ∧ t.2.2.data.count ',' = 0))
      ∧ ∀ row ∈ (writtenOf (process_message "https://hst" sampleRes
            sampleDsName c10plots).events).tail,
          commaCells row = 10 :=
  ⟨⟨by decide, by decide, by decide⟩,
    (c10_citation_author_comma_misalignment "https://hst" sampleRes
      sampleDsName c10plots "2016-07-01" (by decide) (by decide)
      (by decide)).2.2.2⟩

end TerraCanopyCover
